import Mathlib

/-!
Shallow embedding of the Diabetes clinical decision-support repository:
the Flask web application (`app.py`) with its persistence model
(`models.py`), and the federated-learning data partitioning logic
(`create_client_data.py`, `federated_sim.py`).

Conventions of the embedding:
* Python `datetime` values are the `DTime` structure below; `datetime.now()`
  is passed in explicitly as a `now : DTime` argument.
* Python floats (probabilities, glucose values) are modelled as exact
  rationals (`Rat`).
* The SQLAlchemy session plus committed database state is modelled as a
  single `Store` of record lists; `db.session.add` appends.  Queries see
  pending (uncommitted) inserts of the same request, which matches
  SQLAlchemy's autoflush-before-query behaviour; an aborted request
  discards only the rows added since the last `db.session.commit()`.
* External library behaviour invoked by the source (`datetime.fromisoformat`
  of Python < 3.11, `datetime.strptime` with the two fixed format strings,
  `str.replace`) is modelled faithfully from its documented semantics.
-/

/-- A Python `datetime` value: naive when `offset` is `none`, timezone-aware
with a fixed UTC offset in seconds otherwise.  Equality is structural
(aware and naive values with the same fields never coincide). -/
structure DTime where
  year : Nat
  month : Nat
  day : Nat
  hour : Nat
  minute : Nat
  second : Nat
  micro : Nat
  offset : Option Int
deriving DecidableEq, Repr

/-- Gregorian leap-year rule used by Python's `datetime` validation. -/
def isLeapYear (y : Nat) : Bool :=
  (y % 4 == 0 && y % 100 != 0) || (y % 400 == 0)

/-- Number of days in a month, as validated by the `datetime` constructor. -/
def daysInMonth (y m : Nat) : Nat :=
  if m == 2 then (if isLeapYear y then 29 else 28)
  else if m == 4 || m == 6 || m == 9 || m == 11 then 30
  else 31

/-- Date-field validation performed by the `datetime` constructor. -/
def validDate (y m d : Nat) : Bool :=
  decide (1 ≤ y ∧ y ≤ 9999 ∧ 1 ≤ m ∧ m ≤ 12 ∧ 1 ≤ d ∧ d ≤ daysInMonth y m)

/-- Time-field validation performed by the `datetime` constructor. -/
def validTime (h mi s : Nat) : Bool :=
  decide (h ≤ 23 ∧ mi ≤ 59 ∧ s ≤ 59)

/-- Numeric value of a decimal digit character. -/
def digitVal (c : Char) : Nat := c.toNat - 48

/-- Value of a string of decimal digits. -/
def natOfDigits (cs : List Char) : Nat :=
  cs.foldl (fun a c => a * 10 + digitVal c) 0

/-- Consume exactly two decimal digits. -/
def take2Digits : List Char → Option (Nat × List Char)
  | a :: b :: rest =>
    if a.isDigit && b.isDigit then some (digitVal a * 10 + digitVal b, rest)
    else none
  | _ => none

/-- Consume exactly four decimal digits. -/
def take4Digits : List Char → Option (Nat × List Char)
  | a :: b :: c :: d :: rest =>
    if a.isDigit && b.isDigit && c.isDigit && d.isDigit then
      some (natOfDigits [a, b, c, d], rest)
    else none
  | _ => none

/-- Fractional-second component of `datetime.fromisoformat`: a dot followed
by exactly three or exactly six digits, yielding microseconds. -/
def parseFrac : List Char → Option (Nat × List Char)
  | '.' :: rest =>
    let digs := rest.takeWhile Char.isDigit
    if digs.length == 3 then some (natOfDigits digs * 1000, rest.drop 3)
    else if digs.length == 6 then some (natOfDigits digs, rest.drop 6)
    else none
  | _ => none

/-- Time component accepted by `datetime.fromisoformat`:
`HH`, `HH:MM`, or `HH:MM:SS` optionally followed by a fraction. -/
def parseTimePart (cs : List Char) : Option (Nat × Nat × Nat × Nat × List Char) :=
  match take2Digits cs with
  | none => none
  | some (h, r1) =>
    match r1 with
    | ':' :: r2 =>
      match take2Digits r2 with
      | none => none
      | some (mi, r3) =>
        match r3 with
        | ':' :: r4 =>
          match take2Digits r4 with
          | none => none
          | some (sec, r5) =>
            match r5 with
            | '.' :: _ =>
              match parseFrac r5 with
              | none => none
              | some (us, r6) => some (h, mi, sec, us, r6)
            | _ => some (h, mi, sec, 0, r5)
        | _ => some (h, mi, 0, 0, r3)
    | _ => some (h, 0, 0, 0, r1)

/-- Build a fixed-offset timezone; Python requires the absolute offset to be
strictly less than 24 hours. -/
def mkTz (neg : Bool) (th tm ts2 : Nat) (rest : List Char) : Option (Int × List Char) :=
  let total : Nat := th * 3600 + tm * 60 + ts2
  if total < 24 * 3600 then
    some ((if neg then -(total : Int) else (total : Int)), rest)
  else none

/-- UTC-offset component accepted by `datetime.fromisoformat`:
`±HH:MM` or `±HH:MM:SS`. -/
def parseTzPart : List Char → Option (Int × List Char)
  | c :: rest =>
    if c == '+' || c == '-' then
      match take2Digits rest with
      | none => none
      | some (th, r1) =>
        match r1 with
        | ':' :: r2 =>
          match take2Digits r2 with
          | none => none
          | some (tm, r3) =>
            match r3 with
            | ':' :: r4 =>
              match take2Digits r4 with
              | none => none
              | some (ts2, r5) => mkTz (c == '-') th tm ts2 r5
            | _ => mkTz (c == '-') th tm 0 r3
        | _ => none
    else none
  | [] => none

/-- Model of `datetime.fromisoformat` (the classic semantics the source
works around with `.replace('Z', '+00:00')`): `YYYY-MM-DD` optionally
followed by one separator character and a time, itself optionally followed
by a UTC offset.  Returns `none` exactly when Python raises `ValueError`. -/
def fromisoformat (s : String) : Option DTime :=
  match take4Digits s.data with
  | none => none
  | some (y, r1) =>
    match r1 with
    | '-' :: r2 =>
      match take2Digits r2 with
      | none => none
      | some (m, r3) =>
        match r3 with
        | '-' :: r4 =>
          match take2Digits r4 with
          | none => none
          | some (d, r5) =>
            if validDate y m d then
              match r5 with
              | [] => some ⟨y, m, d, 0, 0, 0, 0, none⟩
              | _sep :: r6 =>
                match parseTimePart r6 with
                | none => none
                | some (h, mi, sec, us, r7) =>
                  if validTime h mi sec then
                    match r7 with
                    | [] => some ⟨y, m, d, h, mi, sec, us, none⟩
                    | _ =>
                      match parseTzPart r7 with
                      | none => none
                      | some (off, r8) =>
                        if r8.isEmpty then some ⟨y, m, d, h, mi, sec, us, some off⟩
                        else none
                  else none
            else none
        | _ => none
    | _ => none

/-- Split a character list at every occurrence of a separator character
(the semantics of `str.split(sep)` used to model `strptime` literals). -/
def splitOnChar (sep : Char) : List Char → List (List Char)
  | [] => [[]]
  | c :: rest =>
    if c == sep then [] :: splitOnChar sep rest
    else
      match splitOnChar sep rest with
      | [] => [[c]]
      | h :: t => (c :: h) :: t

/-- A run of decimal digits of bounded width (CPython's `strptime` matches
`%Y` as exactly four digits and `%m`/`%d`/`%H`/`%M`/`%S` as one or two). -/
def digitField (minLen maxLen : Nat) (cs : List Char) : Option Nat :=
  if cs.all Char.isDigit && decide (minLen ≤ cs.length) && decide (cs.length ≤ maxLen)
  then some (natOfDigits cs)
  else none

/-- Model of `datetime.strptime(s, '%Y-%m-%d<sep>%H:%M:%S')` where `<sep>`
is a single literal character (the source uses a space and a `'T'`).
Returns `none` exactly when Python raises `ValueError`. -/
def strptimeYmdHms (sep : Char) (s : String) : Option DTime :=
  match splitOnChar sep s.data with
  | [datePart, timePart] =>
    match splitOnChar '-' datePart, splitOnChar ':' timePart with
    | [ys, ms, ds], [hs, mis, ss] =>
      match digitField 4 4 ys, digitField 1 2 ms, digitField 1 2 ds,
            digitField 1 2 hs, digitField 1 2 mis, digitField 1 2 ss with
      | some y, some m, some d, some h, some mi, some sec =>
        if validDate y m d && validTime h mi sec then
          some ⟨y, m, d, h, mi, sec, 0, none⟩
        else none
      | _, _, _, _, _, _ => none
    | _, _ => none
  | _ => none

/-- `str.replace('Z', '+00:00')` from the source, on character lists. -/
def replaceZ : List Char → List Char
  | [] => []
  | c :: rest =>
    if c == 'Z' then '+' :: '0' :: '0' :: ':' :: '0' :: '0' :: replaceZ rest
    else c :: replaceZ rest

/-- The nested `try`/`except` timestamp-parsing cascade of `api_forecast`
(`app.py` lines 299-307): ISO-8601 on the `Z`-rewritten string first, then
`'%Y-%m-%d %H:%M:%S'`, then `'%Y-%m-%dT%H:%M:%S'`.  `none` means the third
attempt raised, propagating to the per-row exception handler. -/
def parseTs (ts_str : String) : Option DTime :=
  match fromisoformat (String.mk (replaceZ ts_str.data)) with
  | some t => some t
  | none =>
    match strptimeYmdHms ' ' ts_str with
    | some t => some t
    | none => strptimeYmdHms 'T' ts_str

/-- Sort key ignoring the offset, used for `ORDER BY timestamp DESC`. -/
def DTime.key (t : DTime) : Nat :=
  (((((t.year * 13 + t.month) * 32 + t.day) * 24 + t.hour) * 60 + t.minute) * 60
      + t.second) * 1000000 + t.micro

/-- Zero-pad a number to a given width. -/
def padNum (width n : Nat) : String :=
  let s := toString n
  String.mk (List.replicate (width - s.length) '0') ++ s

/-- Offset suffix of `datetime.isoformat` for aware values. -/
def tzSuffix : Option Int → String
  | none => ""
  | some off =>
    let sign := if off < 0 then "-" else "+"
    let a := off.natAbs
    sign ++ padNum 2 (a / 3600) ++ ":" ++ padNum 2 ((a % 3600) / 60)
      ++ (if a % 60 == 0 then "" else ":" ++ padNum 2 (a % 60))

/-- Model of `datetime.isoformat()`. -/
def DTime.isoformat (t : DTime) : String :=
  padNum 4 t.year ++ "-" ++ padNum 2 t.month ++ "-" ++ padNum 2 t.day ++ "T"
    ++ padNum 2 t.hour ++ ":" ++ padNum 2 t.minute ++ ":" ++ padNum 2 t.second
    ++ (if t.micro == 0 then "" else "." ++ padNum 6 t.micro)
    ++ tzSuffix t.offset

/-! ## The data model (`models.py`)

Record creation timestamps (`created_at` columns) are omitted: no claim
under verification mentions them.  Auto-increment primary keys other than
`User.id` are likewise omitted. -/

/-- `User` row (`models.py`). -/
structure User where
  id : Nat
  email : String
  password_hash : String
  role : String
deriving DecidableEq, Repr

/-- `PatientProfile` row; the optional demographic columns unused by the
claims (age, sex, height, weight) are omitted. -/
structure PatientProfile where
  user_id : Nat
  first_name : String
  last_name : String
  name : String
deriving DecidableEq, Repr

/-- `GlucoseReading` row. -/
structure GlucoseReading where
  user_id : Nat
  timestamp : DTime
  glucose : Rat
  source : String
deriving DecidableEq, Repr

/-- `RiskPrediction` row. -/
structure RiskPrediction where
  user_id : Nat
  prediction : Int
  probability : Rat
deriving DecidableEq, Repr

/-- `Alert` row. -/
structure Alert where
  user_id : Nat
  message : String
  level : String
deriving DecidableEq, Repr

/-- `AuditLog` row (`user_id` is nullable for system events). -/
structure AuditLog where
  user_id : Option Nat
  action : String
deriving DecidableEq, Repr

/-- The database state: one list per table, plus the `User` auto-increment
counter.  `db.session.add` appends to the corresponding list. -/
structure Store where
  users : List User := []
  profiles : List PatientProfile := []
  readings : List GlucoseReading := []
  predictions : List RiskPrediction := []
  alerts : List Alert := []
  audits : List AuditLog := []
  next_id : Nat := 1
deriving DecidableEq, Repr

/-- The empty database. -/
def emptyStore : Store := {}

/-- Python truthiness of an optional form field: `None` and `''` are falsy. -/
def pyTruthy : Option String → Bool
  | none => false
  | some s => !(s.data.isEmpty)

/-- Python `str.strip()`: remove leading and trailing whitespace. -/
def pyStrip (s : String) : String :=
  String.mk (((s.data.dropWhile Char.isWhitespace).reverse.dropWhile
    Char.isWhitespace).reverse)

/-- `werkzeug.security.generate_password_hash`, modelled as an injective
tagging function (no claim depends on the hash contents). -/
def generatePasswordHash (p : String) : String := "pbkdf2-sha256$" ++ p

/-- `log_audit` helper (`app.py` lines 96-109): appends an `AuditLog` row and
commits.  The exception branch (write failure → rollback) is not modelled;
no claim depends on a failing audit write. -/
def logAudit (uid : Option Nat) (action : String) (s : Store) : Store :=
  { s with audits := s.audits ++ [⟨uid, action⟩] }

/-! ## Registration and user creation (`app.py`) -/

/-- The POST form of `/register`; `none` models an absent field. -/
structure RegForm where
  email : Option String
  password : Option String
  confirm_password : Option String
  first_name : Option String
  last_name : Option String
deriving DecidableEq, Repr

/-- Page-level outcome of a form POST. -/
inductive PageResult
  | renderRegister (err : String)
  | redirectLogin (msg : String)
deriving DecidableEq, Repr

/-- `register` POST handler (`app.py` lines 126-187). -/
def register (form : RegForm) (s : Store) : PageResult × Store :=
  if !(pyTruthy form.email) || !(pyTruthy form.password) then
    (.renderRegister "Email and password are required", s)
  else if form.password != form.confirm_password then
    (.renderRegister "Passwords do not match", s)
  else if (form.password.getD "").length < 6 then
    (.renderRegister "Password must be at least 6 characters long", s)
  else
    let first_name := pyStrip (form.first_name.getD "")
    let last_name := pyStrip (form.last_name.getD "")
    if first_name.data.isEmpty || last_name.data.isEmpty then
      (.renderRegister "First name and last name are required", s)
    else if s.users.any (fun u => u.email == form.email.getD "") then
      (.redirectLogin "Email already registered. Please login instead.", s)
    else
      let uid := s.next_id
      let user : User :=
        ⟨uid, form.email.getD "", generatePasswordHash (form.password.getD ""), "patient"⟩
      let full_name := first_name ++ " " ++ last_name
      let profile : PatientProfile := ⟨uid, first_name, last_name, full_name⟩
      let s1 : Store :=
        { s with users := s.users ++ [user], profiles := s.profiles ++ [profile],
                 next_id := uid + 1 }
      (.redirectLogin "Registration successful! Please login.",
        logAudit (some uid) "user_register" s1)

/-- The POST form of `/admin/create-clinician` (the first/last name fields it
reads are never used by the handler and are omitted). -/
structure ClinicianForm where
  email : Option String
  password : Option String
deriving DecidableEq, Repr

/-- `create_clinician` POST handler (`app.py` lines 377-414), database effect
only (every branch redirects to the admin dashboard). -/
def create_clinician (adminId : Nat) (form : ClinicianForm) (s : Store) : Store :=
  if !(pyTruthy form.email) || !(pyTruthy form.password) then s
  else if (form.password.getD "").length < 6 then s
  else if s.users.any (fun u => u.email == form.email.getD "") then s
  else
    let uid := s.next_id
    let clinician : User :=
      ⟨uid, form.email.getD "", generatePasswordHash (form.password.getD ""), "clinician"⟩
    logAudit (some adminId) "clinician_created"
      { s with users := s.users ++ [clinician], next_id := uid + 1 }

/-- `seed_defaults` (`app.py` lines 488-514): seed the admin, clinician and
patient demo accounts when their emails are absent. -/
def seed_defaults (s : Store) : Store :=
  let s1 :=
    if s.users.any (fun u => u.email == "admin@example.com") then s
    else { s with
           users := s.users ++
             [⟨s.next_id, "admin@example.com", generatePasswordHash "admin123", "admin"⟩],
           next_id := s.next_id + 1 }
  let s2 :=
    if s1.users.any (fun u => u.email == "clinician@example.com") then s1
    else { s1 with
           users := s1.users ++
             [⟨s1.next_id, "clinician@example.com", generatePasswordHash "password123",
               "clinician"⟩],
           next_id := s1.next_id + 1 }
  if s2.users.any (fun u => u.email == "patient@example.com") then s2
  else
    let uid := s2.next_id
    let s3 : Store :=
      { s2 with
        users := s2.users ++
          [⟨uid, "patient@example.com", generatePasswordHash "password123", "patient"⟩],
        next_id := uid + 1 }
    if s3.profiles.any (fun p => p.user_id == uid) then s3
    else { s3 with profiles := s3.profiles ++ [⟨uid, "John", "Doe", "John Doe"⟩] }

/-! ## Prediction API (`app.py` lines 234-257) -/

/-- `q * 100` rounded to the nearest integer, ties to even — the rounding
`format(x, '.2f')` applies to the (here exact) numeric value.  Computed on
the numerator and denominator directly. -/
def roundHalfEven100 (q : Rat) : Int :=
  let d : Int := (q.den : Int)
  let t : Int := q.num * 100
  let f : Int := t.fdiv d
  let r : Int := t - f * d
  if 2 * r < d then f
  else if d < 2 * r then f + 1
  else if f % 2 == 0 then f else f + 1

/-- Python `f'{x:.2f}'` on an exact rational value. -/
def format2 (q : Rat) : String :=
  let n := roundHalfEven100 q
  if n < 0 then
    "-" ++ toString ((-n).toNat / 100) ++ "." ++ padNum 2 ((-n).toNat % 100)
  else
    toString (n.toNat / 100) ++ "." ++ padNum 2 (n.toNat % 100)

/-- `api_predict` (`app.py` lines 234-257), database effect.  The model
service output (`pred`, `prob`) is produced by the unseen `ml` modules and
enters as arguments; the JSON response echoes them back unchanged. -/
def api_predict (uid : Nat) (pred : Int) (prob : Rat) (s : Store) : Store :=
  let s1 : Store := { s with predictions := s.predictions ++ [⟨uid, pred, prob⟩] }
  let s2 : Store :=
    if mkRat 7 10 ≤ prob then
      { s1 with alerts := s1.alerts ++
          [⟨uid, "High diabetes risk: " ++ format2 prob, "high"⟩] }
    else s1
  logAudit (some uid) "prediction_made" s2

/-! ## CGM ingestion inside `api_forecast` (`app.py` lines 280-331) -/

/-- One row of the uploaded CSV after the `DictReader` loop: `timestamp` is
`none` when the column is absent (`row.get('timestamp')` returned `None`),
and `glucose` is the `float(...)` conversion result. -/
structure CsvRow where
  timestamp : Option String
  glucose : Rat
deriving DecidableEq, Repr

/-- The filter predicate of the duplicate-check query
`GlucoseReading.query.filter_by(user_id=..., timestamp=..., source='cgm')`. -/
def cgmMatch (uid : Nat) (ts : DTime) (r : GlucoseReading) : Bool :=
  r.user_id == uid && r.timestamp == ts && r.source == "cgm"

/-- Whether the duplicate-check query finds an existing row.  The query sees
rows added earlier in the same request (SQLAlchemy autoflush). -/
def cgmExists (s : Store) (uid : Nat) (ts : DTime) : Bool :=
  s.readings.any (cgmMatch uid ts)

/-- Number of stored `cgm` readings for one (user, timestamp) pair. -/
def cgmCount (s : Store) (uid : Nat) (ts : DTime) : Nat :=
  (s.readings.filter (cgmMatch uid ts)).length

/-- The `if not existing: db.session.add(...)` step for one parsed reading. -/
def insertCgmReading (uid : Nat) (ts : DTime) (g : Rat) (s : Store) : Store :=
  if cgmExists s uid ts then s
  else { s with readings := s.readings ++ [⟨uid, ts, g, "cgm"⟩] }

/-- One iteration of the CGM storage loop, including its `try`/`except`:
a string timestamp is pushed through `parseTs`; if all three formats raise,
the per-row handler catches and `continue`s, storing nothing; a non-string
timestamp uses `datetime.now()`. -/
def processCgmRow (uid : Nat) (row : CsvRow) (now : DTime) (s : Store) : Store :=
  match row.timestamp with
  | some str =>
    match parseTs str with
    | some ts => insertCgmReading uid ts row.glucose s
    | none => s
  | none => insertCgmReading uid now row.glucose s

/-- The whole CGM storage loop over the parsed CSV rows. -/
def storeCgmRows (uid : Nat) (rows : List CsvRow) (now : DTime) (s : Store) : Store :=
  rows.foldl (fun acc row => processCgmRow uid row now acc) s

/-- The timestamp key a row would be stored under (`none` when the row is
skipped by the exception handler). -/
def rowKey (now : DTime) (row : CsvRow) : Option DTime :=
  match row.timestamp with
  | some str => parseTs str
  | none => some now

/-! ## Forecast API (`app.py` lines 272-349) -/

/-- An element of the `readings` list handed to `forecast_glucose`:
`timestamp` is `none` when the JSON field is not a string. -/
structure JReading where
  timestamp : Option String
  glucose : Rat
deriving DecidableEq, Repr

/-- A point returned by `forecast_glucose` (unseen `ml.forecast` module):
`timestamp` is `none` when `pt['timestamp']` is not a string. -/
structure FPoint where
  timestamp : Option String
  glucose : Rat
deriving DecidableEq, Repr

/-- A request to `POST /api/forecast`: `is_json` is `request.is_json`,
`json_readings` is `data.get('readings', [])` of the JSON body, and `file`
is the parsed CSV rows when a multipart `file` field is present. -/
structure ForecastReq where
  is_json : Bool
  json_readings : List JReading
  file : Option (List CsvRow)
deriving Repr

/-- Outcome of `api_forecast`: the 200 JSON response, the 400 error response,
or an unhandled exception (HTTP 500) from the caching loop. -/
inductive ForecastOutcome
  | ok (forecast : List FPoint) (cgm_stored : Bool)
  | badRequest
  | serverError
deriving DecidableEq, Repr

/-- Timestamp used when caching one forecast point (`app.py` line 345):
`datetime.fromisoformat(pt['timestamp'])` for a string — with no fallback
formats — else `now`;  `none` means the call raises. -/
def pointTs (now : DTime) (pt : FPoint) : Option DTime :=
  match pt.timestamp with
  | some str => fromisoformat str
  | none => some now

/-- Timestamps of the whole caching loop: `none` as soon as one point's
string timestamp fails `fromisoformat` (the exception aborts the request
before the final commit). -/
def cacheTs (now : DTime) : List FPoint → Option (List DTime)
  | [] => some []
  | pt :: rest =>
    match pointTs now pt, cacheTs now rest with
    | some t, some ts => some (t :: ts)
    | _, _ => none

/-- Insert a reading into a list sorted by descending timestamp key. -/
def insertDesc (r : GlucoseReading) : List GlucoseReading → List GlucoseReading
  | [] => [r]
  | x :: xs =>
    if x.timestamp.key ≤ r.timestamp.key then r :: x :: xs
    else x :: insertDesc r xs

/-- `ORDER BY timestamp DESC` over a list of readings. -/
def sortDescByTs (l : List GlucoseReading) : List GlucoseReading :=
  l.foldr insertDesc []

/-- The empty-readings fallback (`app.py` lines 336-339): the user's most
recent 50 stored readings, oldest first, re-serialised with `isoformat`. -/
def dbFallback (uid : Nat) (s : Store) : List JReading :=
  (((sortDescByTs (s.readings.filter (fun r => r.user_id == uid))).take 50).reverse).map
    (fun r => ⟨some r.timestamp.isoformat, r.glucose⟩)

/-- Lines 335-349 of `api_forecast`: fallback, forecast, cache, respond.
`fg` is the unseen `forecast_glucose`; `s` is the database state already
committed when this code runs (so a caching exception leaves exactly `s`). -/
def forecastAndCache (uid : Nat) (readings0 : List JReading) (cgm_uploaded : Bool)
    (now : DTime) (fg : List JReading → List FPoint) (s : Store) :
    ForecastOutcome × Store :=
  let readings := if readings0.isEmpty then dbFallback uid s else readings0
  let pts := fg readings
  match cacheTs now pts with
  | none => (.serverError, s)
  | some tss =>
    (.ok pts cgm_uploaded,
      { s with readings := s.readings ++
          (pts.zip tss).map (fun p => ⟨uid, p.2, p.1.glucose, "forecast"⟩) })

/-- `api_forecast` (`app.py` lines 272-349).  `request.is_json` is tested
before the file field, so a JSON request never reaches the upload branch. -/
def api_forecast (uid : Nat) (req : ForecastReq) (now : DTime)
    (fg : List JReading → List FPoint) (s : Store) : ForecastOutcome × Store :=
  if req.is_json then
    forecastAndCache uid req.json_readings false now fg s
  else
    match req.file with
    | some rows =>
      let readings := rows.map (fun r => (⟨r.timestamp, r.glucose⟩ : JReading))
      let s1 := storeCgmRows uid rows now s
      let s2 := logAudit (some uid) "cgm_uploaded" s1
      forecastAndCache uid readings true now fg s2
    | none => (.badRequest, s)

/-- The rows a later request reads back for one user
(`GlucoseReading.query.filter_by(user_id=...)`). -/
def userReadings (uid : Nat) (s : Store) : List GlucoseReading :=
  s.readings.filter (fun r => r.user_id == uid)

/-! ## Client data partitioning (`create_client_data.py` lines 43-56;
the same integer-division chunking is inlined in `federated_sim.py`
lines 33-40) -/

/-- The rows written to `pima_client_<i>.csv` (1-indexed `i`):
`df.iloc[start_idx:end_idx]` with `chunk_size = len(df) // num_clients`,
`start_idx = (i - 1) * chunk_size` and
`end_idx = start_idx + chunk_size if i < num_clients else len(df)`. -/
def clientShard {α : Type} (df : List α) (num_clients : Nat) (i : Nat) : List α :=
  let chunk_size := df.length / num_clients
  let start_idx := (i - 1) * chunk_size
  let end_idx := if i < num_clients then start_idx + chunk_size else df.length
  (df.drop start_idx).take (end_idx - start_idx)

/-- All shards produced by the `for i in range(1, num_clients + 1)` loop. -/
def clientShards {α : Type} (df : List α) (num_clients : Nat) : List (List α) :=
  (List.range num_clients).map (fun j => clientShard df num_clients (j + 1))

/-- `create_client_data_files`: `none` models a missing main data file
(early `return False`); otherwise the shards are written and the function
returns `True`. -/
def create_client_data_files {α : Type} (df : Option (List α)) (num_clients : Nat) :
    Bool × List (List α) :=
  match df with
  | none => (false, [])
  | some rows => (true, clientShards rows num_clients)

/-! ## Theorems -/

/-- C1: every authenticated call to the prediction API appends exactly one
RiskPrediction row for the current user; when the returned probability is
at least 0.7 it additionally appends exactly one Alert of level `high`
whose message is `"High diabetes risk: "` followed by the probability
formatted to two decimal places, and when the probability is below 0.7 the
alerts table is unchanged. -/
theorem c1_predict_row_and_alert (uid : Nat) (pred : Int) (prob : Rat) (s : Store) :
    (api_predict uid pred prob s).predictions = s.predictions ++ [⟨uid, pred, prob⟩] ∧
    (mkRat 7 10 ≤ prob →
      (api_predict uid pred prob s).alerts =
        s.alerts ++ [⟨uid, "High diabetes risk: " ++ format2 prob, "high"⟩]) ∧
    (prob < mkRat 7 10 → (api_predict uid pred prob s).alerts = s.alerts) := by
  refine ⟨?_, ?_, ?_⟩
  · simp only [api_predict, logAudit]
    split <;> rfl
  · intro h
    simp [api_predict, logAudit, if_pos h]
  · intro h
    simp [api_predict, logAudit, if_neg (not_le.mpr h)]

/-- Witness for C1 at probability 0.85. -/
theorem c1_witness :
    mkRat 7 10 ≤ mkRat 17 20 ∧
    (api_predict 1 1 (mkRat 17 20) emptyStore).alerts =
      emptyStore.alerts ++
        [⟨1, "High diabetes risk: " ++ format2 (mkRat 17 20), "high"⟩] :=
  ⟨by decide, (c1_predict_row_and_alert 1 1 (mkRat 17 20) emptyStore).2.1 (by decide)⟩

/-- C6: an authenticated forecast request that carries neither a JSON body
nor a multipart `file` field gets the 400 error response and leaves the
whole store — in particular every GlucoseReading of every source —
unchanged. -/
theorem c6_forecast_no_data_400 (uid : Nat) (jr : List JReading) (now : DTime)
    (fg : List JReading → List FPoint) (s : Store) :
    api_forecast uid ⟨false, jr, none⟩ now fg s = (ForecastOutcome.badRequest, s) :=
  rfl

/-- A non-final shard consists of exactly `chunk_size` rows. -/
lemma clientShard_length_of_lt {α : Type} (df : List α) (k i : Nat) (hik : i + 1 < k) :
    (clientShard df k (i + 1)).length = df.length / k := by
  unfold clientShard
  simp only [Nat.add_sub_cancel, if_pos hik]
  rw [Nat.add_sub_cancel_left, List.length_take, List.length_drop]
  have hk : (i + 1) * (df.length / k) ≤ k * (df.length / k) :=
    Nat.mul_le_mul_right _ (Nat.le_of_lt hik)
  have hlen : k * (df.length / k) ≤ df.length := by
    calc k * (df.length / k) = df.length / k * k := Nat.mul_comm _ _
    _ ≤ df.length := Nat.div_mul_le_self _ _
  have hmul : (i + 1) * (df.length / k) = i * (df.length / k) + df.length / k := by
    ring
  exact min_eq_left (by omega)

/-- The final shard is everything from its start index to the end. -/
lemma clientShard_last {α : Type} (df : List α) (k : Nat) :
    clientShard df k k = df.drop ((k - 1) * (df.length / k)) := by
  unfold clientShard
  simp only [if_neg (Nat.lt_irrefl k)]
  rw [show df.length - (k - 1) * (df.length / k)
      = (df.drop ((k - 1) * (df.length / k))).length from (List.length_drop _ _).symm]
  exact List.take_length _

/-- Flattening the shards from index `a+1` to `k` recovers the tail of the
dataset starting at row `a * chunk_size`. -/
lemma clientShards_flatten_aux {α : Type} (df : List α) (k : Nat) :
    ∀ n a, a + n + 1 = k →
      (((List.range' a (n + 1)).map (fun j => clientShard df k (j + 1))).flatten)
        = df.drop (a * (df.length / k)) := by
  intro n
  induction n with
  | zero =>
    intro a ha
    have ha1 : a = k - 1 := by omega
    subst ha1
    rw [List.range'_one, List.map_cons, List.map_nil, List.flatten_cons,
      List.flatten_nil, List.append_nil, show k - 1 + 1 = k from by omega,
      clientShard_last]
  | succ m ih =>
    intro a ha
    have hlt : a + 1 < k := by omega
    have hrec := ih (a + 1) (by omega)
    rw [List.range'_succ, List.map_cons, List.flatten_cons, hrec]
    unfold clientShard
    simp only [Nat.add_sub_cancel, if_pos hlt, Nat.add_sub_cancel_left]
    have hdd : df.drop ((a + 1) * (df.length / k))
        = (df.drop (a * (df.length / k))).drop (df.length / k) := by
      rw [List.drop_drop, Nat.add_mul, Nat.one_mul, Nat.add_comm]
    rw [hdd]
    exact List.take_append_drop _ _

/-- Flattening all shards, in order, recovers the dataset. -/
lemma clientShards_flatten {α : Type} (df : List α) (k : Nat) (hk : 1 ≤ k) :
    (clientShards df k).flatten = df := by
  unfold clientShards
  rw [List.range_eq_range']
  have h := clientShards_flatten_aux df k (k - 1) 0 (by omega)
  rw [show k - 1 + 1 = k from by omega] at h
  simpa using h

/-- The i-th produced shard (0-indexed access into the returned list). -/
lemma clientShards_getD {α : Type} (df : List α) (k i : Nat) (hi : i < k) :
    (clientShards df k).getD i [] = clientShard df k (i + 1) := by
  unfold clientShards
  rw [List.getD_eq_getElem?_getD, List.getElem?_map, List.getElem?_range hi]
  rfl

/-- C5: for a dataset of R rows and a client count k with 1 ≤ k ≤ R, the
partitioning utility reports success and writes k shards; shards 1..k-1
hold exactly R / k rows each, shard k holds the remaining
R - (k-1) * (R / k) rows, and flattening the shards in order yields the
original dataset with no row duplicated or dropped. -/
theorem c5_partition_sizes_and_concat {α : Type} (df : List α) (k : Nat)
    (hk : 1 ≤ k) (hkR : k ≤ df.length) :
    (create_client_data_files (some df) k).1 = true ∧
    (create_client_data_files (some df) k).2.length = k ∧
    (∀ i, i + 1 < k →
      ((create_client_data_files (some df) k).2.getD i []).length = df.length / k) ∧
    ((create_client_data_files (some df) k).2.getD (k - 1) []).length
      = df.length - (k - 1) * (df.length / k) ∧
    ((create_client_data_files (some df) k).2).flatten = df := by
  refine ⟨rfl, ?_, ?_, ?_, ?_⟩
  · simp [create_client_data_files, clientShards]
  · intro i hi
    show ((clientShards df k).getD i []).length = df.length / k
    rw [clientShards_getD df k i (by omega)]
    exact clientShard_length_of_lt df k i hi
  · show ((clientShards df k).getD (k - 1) []).length
      = df.length - (k - 1) * (df.length / k)
    rw [clientShards_getD df k (k - 1) (by omega), show k - 1 + 1 = k from by omega,
      clientShard_last, List.length_drop]
  · exact clientShards_flatten df k hk

/-- Witness for C5: 100 rows over 3 clients give shard sizes 33, 33, 34 and
flatten back to the whole dataset. -/
theorem c5_witness :
    ((create_client_data_files (some (List.range 100)) 3).2.getD 0 []).length = 33 ∧
    ((create_client_data_files (some (List.range 100)) 3).2.getD 2 []).length = 34 ∧
    ((create_client_data_files (some (List.range 100)) 3).2).flatten
      = List.range 100 := by
  have h := c5_partition_sizes_and_concat (List.range 100) 3 (by decide) (by simp)
  refine ⟨?_, ?_, h.2.2.2.2⟩
  · have := h.2.2.1 0 (by decide)
    simpa using this
  · have := h.2.2.2.1
    simpa using this

/-- C10: when the dataset has fewer rows than there are clients, the
partitioning utility still reports success: the chunk size is 0, shards
1..k-1 are empty, and the final shard receives all rows. -/
theorem c10_partition_more_clients_than_rows {α : Type} (df : List α) (k : Nat)
    (h : df.length < k) :
    (create_client_data_files (some df) k).1 = true ∧
    df.length / k = 0 ∧
    (create_client_data_files (some df) k).2.length = k ∧
    (∀ i, i + 1 < k → (create_client_data_files (some df) k).2.getD i [] = []) ∧
    (create_client_data_files (some df) k).2.getD (k - 1) [] = df := by
  have hcs : df.length / k = 0 := Nat.div_eq_of_lt h
  have hk : 1 ≤ k := by omega
  refine ⟨rfl, hcs, ?_, ?_, ?_⟩
  · simp [create_client_data_files, clientShards]
  · intro i hi
    show (clientShards df k).getD i [] = []
    rw [clientShards_getD df k i (by omega)]
    unfold clientShard
    simp [hcs, if_pos hi]
  · show (clientShards df k).getD (k - 1) [] = df
    rw [clientShards_getD df k (k - 1) (by omega), show k - 1 + 1 = k from by omega,
      clientShard_last, hcs]
    simp

/-- Witness for C10: two rows split across five clients. -/
theorem c10_witness :
    (create_client_data_files (some [10, 20]) 5).2.getD 4 [] = [10, 20] :=
  (c10_partition_more_clients_than_rows [10, 20] 5 (by decide)).2.2.2.2

/-- A string is the empty string iff its character list is empty. -/
lemma string_eq_empty_iff (s : String) : s = "" ↔ s.data = [] := by
  constructor
  · intro h
    rw [h]
  · intro h
    exact String.ext h

/-- C4: a registration POST failing validation — missing email or password,
password different from its confirmation, password shorter than six
characters, or a blank/absent first or last name — leaves the store (hence
the User and PatientProfile tables) unchanged; a successful registration
appends exactly one User with role `patient` and exactly one
PatientProfile whose stored name is the first name, a space, and the last
name. -/
theorem c4_register_validation (form : RegForm) (s : Store) :
    ((pyTruthy form.email = false ∨ pyTruthy form.password = false) →
      (register form s).2 = s) ∧
    (form.password ≠ form.confirm_password → (register form s).2 = s) ∧
    ((form.password.getD "").length < 6 → (register form s).2 = s) ∧
    ((pyStrip (form.first_name.getD "") = "" ∨ pyStrip (form.last_name.getD "") = "") →
      (register form s).2 = s) ∧
    (pyTruthy form.email = true → pyTruthy form.password = true →
      form.password = form.confirm_password →
      6 ≤ (form.password.getD "").length →
      pyStrip (form.first_name.getD "") ≠ "" →
      pyStrip (form.last_name.getD "") ≠ "" →
      s.users.any (fun u => u.email == form.email.getD "") = false →
      (register form s).2.users = s.users ++
        [⟨s.next_id, form.email.getD "",
          generatePasswordHash (form.password.getD ""), "patient"⟩] ∧
      (register form s).2.profiles = s.profiles ++
        [⟨s.next_id, pyStrip (form.first_name.getD ""), pyStrip (form.last_name.getD ""),
          pyStrip (form.first_name.getD "") ++ " " ++ pyStrip (form.last_name.getD "")⟩]) := by
  simp only [register]
  split_ifs with h1 h2 h3 h4 h5
  · refine ⟨fun _ => rfl, fun _ => rfl, fun _ => rfl, fun _ => rfl, ?_⟩
    intro he hp _ _ _ _ _
    rw [he, hp] at h1
    simp at h1
  · refine ⟨fun _ => rfl, fun _ => rfl, fun _ => rfl, fun _ => rfl, ?_⟩
    intro _ _ heq _ _ _ _
    rw [heq] at h2
    simp at h2
  · refine ⟨fun _ => rfl, fun _ => rfl, fun _ => rfl, fun _ => rfl, ?_⟩
    intro _ _ _ hlen _ _ _
    omega
  · refine ⟨fun _ => rfl, fun _ => rfl, fun _ => rfl, fun _ => rfl, ?_⟩
    intro _ _ _ _ hf hl _
    rcases Bool.or_eq_true _ _ |>.mp h4 with h | h
    · exact (hf (string_eq_empty_iff _ |>.mpr (List.isEmpty_iff.mp h))).elim
    · exact (hl (string_eq_empty_iff _ |>.mpr (List.isEmpty_iff.mp h))).elim
  · refine ⟨fun _ => rfl, fun _ => rfl, fun _ => rfl, fun _ => rfl, ?_⟩
    intro _ _ _ _ _ _ hany
    rw [hany] at h5
    simp at h5
  · refine ⟨?_, ?_, ?_, ?_, ?_⟩
    · intro hdisj
      rcases hdisj with h | h <;> exact absurd (by simp [h]) h1
    · intro hne
      exact absurd (bne_iff_ne.mpr hne) h2
    · intro hlen
      omega
    · intro hdisj
      rcases hdisj with h | h <;>
        exact absurd (by simp [string_eq_empty_iff _ |>.mp h]) h4
    · intro _ _ _ _ _ _ hany
      exact ⟨by simp [logAudit], by simp [logAudit]⟩

/-- Witness for C4 on a concrete valid registration form. -/
theorem c4_witness :
    (register ⟨some "ann@example.com", some "hunter2x", some "hunter2x",
        some " Ann ", some "Lee"⟩ emptyStore).2.users =
      emptyStore.users ++
        [⟨emptyStore.next_id, "ann@example.com", generatePasswordHash "hunter2x",
          "patient"⟩] := by
  have h := (c4_register_validation
    ⟨some "ann@example.com", some "hunter2x", some "hunter2x",
      some " Ann ", some "Lee"⟩ emptyStore).2.2.2.2
    (by decide) (by decide) (by decide) (by decide) (by decide) (by decide) (by decide)
  exact h.1

/-- The role invariant of the claim: every stored user's role is one of the
three enumerated values. -/
def rolesOk (s : Store) : Bool :=
  s.users.all (fun u => u.role == "patient" || u.role == "clinician" || u.role == "admin")

/-- C8: all three user-creation paths — self-service registration, admin
clinician creation, and default seeding — preserve the invariant that every
stored role is exactly one of `patient`, `clinician`, `admin`. -/
theorem c8_role_always_enumerated (form : RegForm) (cform : ClinicianForm)
    (adminId : Nat) (s1 s2 s3 : Store) :
    (rolesOk s1 = true → rolesOk (register form s1).2 = true) ∧
    (rolesOk s2 = true → rolesOk (create_clinician adminId cform s2) = true) ∧
    (rolesOk s3 = true → rolesOk (seed_defaults s3) = true) := by
  refine ⟨?_, ?_, ?_⟩
  · intro h
    simp only [register]
    split_ifs <;> simp_all [rolesOk, logAudit, List.all_append]
  · intro h
    simp only [create_clinician]
    split_ifs <;> simp_all [rolesOk, logAudit, List.all_append]
  · intro h
    simp only [seed_defaults]
    split_ifs <;> simp_all [rolesOk, List.all_append]

/-- Witness for C8: seeding the empty store keeps every role enumerated. -/
theorem c8_witness :
    rolesOk emptyStore = true ∧ rolesOk (seed_defaults emptyStore) = true :=
  ⟨by decide,
    (c8_role_always_enumerated ⟨none, none, none, none, none⟩ ⟨none, none⟩ 0
      emptyStore emptyStore emptyStore).2.2 (by decide)⟩

/-- C2 counterexample: the CSV row with timestamp string
`"not-a-timestamp"` fails all three formats, and — contrary to the claim
that such a row is still stored with its timestamp defaulted to the
current time — the per-row exception handler skips it: processing it on an
empty store stores nothing at all. -/
theorem c2_counterexample :
    parseTs "not-a-timestamp" = none ∧
    (processCgmRow 1 ⟨some "not-a-timestamp", 100⟩ ⟨2024, 1, 1, 0, 0, 0, 0, none⟩
        emptyStore).readings = [] := by
  decide

/-- C2 (amended): a CGM row's string timestamp is parsed by attempting, in
order, ISO-8601 on the `Z`-rewritten string, then `'%Y-%m-%d %H:%M:%S'`,
then `'%Y-%m-%dT%H:%M:%S'`; a row whose timestamp is absent (not a string)
is stored with its timestamp defaulted to the current time, while a row
whose timestamp string fails all three formats raises inside the per-row
exception handler and is skipped — it is not stored at all. -/
theorem c2_timestamp_parsing_amended (uid : Nat) (row : CsvRow) (now : DTime)
    (s : Store) :
    (row.timestamp = none → cgmExists s uid now = false →
      (processCgmRow uid row now s).readings
        = s.readings ++ [⟨uid, now, row.glucose, "cgm"⟩]) ∧
    (∀ str, row.timestamp = some str → parseTs str = none →
      processCgmRow uid row now s = s) ∧
    (∀ str t, row.timestamp = some str → parseTs str = some t →
      processCgmRow uid row now s = insertCgmReading uid t row.glucose s) ∧
    (∀ str t, fromisoformat (String.mk (replaceZ str.data)) = some t →
      parseTs str = some t) ∧
    (∀ str t, fromisoformat (String.mk (replaceZ str.data)) = none →
      strptimeYmdHms ' ' str = some t → parseTs str = some t) ∧
    (∀ str, fromisoformat (String.mk (replaceZ str.data)) = none →
      strptimeYmdHms ' ' str = none → parseTs str = strptimeYmdHms 'T' str) := by
  refine ⟨?_, ?_, ?_, ?_, ?_, ?_⟩
  · intro hnone hex
    simp only [processCgmRow, hnone, insertCgmReading, hex]
    simp
  · intro str hsome hfail
    simp only [processCgmRow, hsome, hfail]
  · intro str t hsome hok
    simp only [processCgmRow, hsome, hok]
  · intro str t hiso
    simp only [parseTs, hiso]
  · intro str t hiso hsp
    simp only [parseTs, hiso, hsp]
  · intro str hiso hsp
    simp only [parseTs, hiso, hsp]

/-- Witness for C2 (amended): a row with an absent timestamp is stored at
the current time. -/
theorem c2_witness :
    (processCgmRow 7 ⟨none, 100⟩ ⟨2024, 1, 1, 0, 0, 0, 0, none⟩ emptyStore).readings
      = emptyStore.readings ++ [⟨7, ⟨2024, 1, 1, 0, 0, 0, 0, none⟩, 100, "cgm"⟩] :=
  (c2_timestamp_parsing_amended 7 ⟨none, 100⟩ ⟨2024, 1, 1, 0, 0, 0, 0, none⟩
      emptyStore).1 rfl (by decide)

/-- If the duplicate check finds nothing, there are zero matching rows. -/
lemma cgmCount_eq_zero (s : Store) (uid : Nat) (ts : DTime)
    (hex : cgmExists s uid ts = false) : cgmCount s uid ts = 0 := by
  unfold cgmExists at hex
  unfold cgmCount
  rw [List.length_eq_zero, List.filter_eq_nil_iff]
  intro r hr hm
  have : s.readings.any (cgmMatch uid ts) = true := List.any_eq_true.mpr ⟨r, hr, hm⟩
  rw [this] at hex
  exact Bool.noConfusion hex

/-- Inserting with a clear duplicate check puts exactly one matching row in. -/
lemma cgmCount_insert_self (uid : Nat) (ts : DTime) (g : Rat) (s : Store)
    (hex : cgmExists s uid ts = false) :
    cgmCount (insertCgmReading uid ts g s) uid ts = 1 := by
  unfold insertCgmReading
  rw [if_neg (by simp [hex])]
  have h0 := cgmCount_eq_zero s uid ts hex
  unfold cgmCount at h0 ⊢
  simp only [List.filter_append, List.length_append, h0]
  simp [cgmMatch]

/-- After an insert, the inserted key is present. -/
lemma cgmExists_insert_self (uid : Nat) (ts : DTime) (g : Rat) (s : Store) :
    cgmExists (insertCgmReading uid ts g s) uid ts = true := by
  unfold insertCgmReading
  by_cases hex : cgmExists s uid ts = true
  · rw [if_pos (by simp [hex])]
    exact hex
  · rw [if_neg (by simpa using hex)]
    simp [cgmExists, List.any_append, cgmMatch]

/-- Inserts never remove keys. -/
lemma cgmExists_insert_mono (uid : Nat) (ts : DTime) (g : Rat) (s : Store)
    (u : Nat) (t : DTime) (h : cgmExists s u t = true) :
    cgmExists (insertCgmReading uid ts g s) u t = true := by
  unfold insertCgmReading
  by_cases hex : cgmExists s uid ts = true
  · rw [if_pos (by simp [hex])]
    exact h
  · rw [if_neg (by simpa using hex)]
    unfold cgmExists at h ⊢
    simp only [List.any_append, h, Bool.true_or]

/-- Each loop iteration preserves present keys. -/
lemma cgmExists_process_mono (uid : Nat) (row : CsvRow) (now : DTime) (s : Store)
    (u : Nat) (t : DTime) (h : cgmExists s u t = true) :
    cgmExists (processCgmRow uid row now s) u t = true := by
  unfold processCgmRow
  cases row.timestamp with
  | none => exact cgmExists_insert_mono uid now row.glucose s u t h
  | some str =>
    dsimp only
    cases parseTs str with
    | none => exact h
    | some t2 => exact cgmExists_insert_mono uid t2 row.glucose s u t h

/-- The whole loop preserves present keys. -/
lemma cgmExists_store_mono (uid : Nat) (rows : List CsvRow) (now : DTime) :
    ∀ (s : Store) (u : Nat) (t : DTime), cgmExists s u t = true →
      cgmExists (storeCgmRows uid rows now s) u t = true := by
  induction rows with
  | nil => exact fun s u t h => h
  | cons row rest ih =>
    intro s u t h
    exact ih (processCgmRow uid row now s) u t (cgmExists_process_mono uid row now s u t h)

/-- One insert keeps every (user, timestamp) multiplicity at most one. -/
lemma cgmCount_insert_le (uid : Nat) (ts : DTime) (g : Rat) (s : Store)
    (hinv : ∀ u t, cgmCount s u t ≤ 1) (u : Nat) (t : DTime) :
    cgmCount (insertCgmReading uid ts g s) u t ≤ 1 := by
  unfold insertCgmReading
  by_cases hex : cgmExists s uid ts = true
  · rw [if_pos (by simp [hex])]
    exact hinv u t
  · rw [if_neg (by simpa using hex)]
    unfold cgmCount
    simp only [List.filter_append, List.length_append]
    by_cases hm : cgmMatch u t ⟨uid, ts, g, "cgm"⟩ = true
    · have hu : uid = u ∧ ts = t := by
        simpa [cgmMatch] using hm
      have h0 : cgmCount s u t = 0 := by
        rw [← hu.1, ← hu.2]
        exact cgmCount_eq_zero s uid ts (by simpa using hex)
      unfold cgmCount at h0
      rw [h0]
      simp [hm]
    · simp only [List.filter_cons, hm, Bool.false_eq_true, if_false, List.filter_nil,
        List.length_nil, Nat.add_zero]
      exact hinv u t

/-- One loop iteration preserves the multiplicity invariant. -/
lemma processCgmRow_inv (uid : Nat) (row : CsvRow) (now : DTime) (s : Store)
    (hinv : ∀ u t, cgmCount s u t ≤ 1) (u : Nat) (t : DTime) :
    cgmCount (processCgmRow uid row now s) u t ≤ 1 := by
  unfold processCgmRow
  cases row.timestamp with
  | none => exact cgmCount_insert_le uid now row.glucose s hinv u t
  | some str =>
    dsimp only
    cases parseTs str with
    | none => exact hinv u t
    | some t2 => exact cgmCount_insert_le uid t2 row.glucose s hinv u t

/-- The whole loop preserves the multiplicity invariant. -/
lemma storeCgmRows_inv (uid : Nat) (rows : List CsvRow) (now : DTime) :
    ∀ (s : Store), (∀ u t, cgmCount s u t ≤ 1) →
      ∀ u t, cgmCount (storeCgmRows uid rows now s) u t ≤ 1 := by
  induction rows with
  | nil => exact fun s hinv => hinv
  | cons row rest ih =>
    intro s hinv
    exact ih (processCgmRow uid row now s) (processCgmRow_inv uid row now s hinv)

/-- After the loop, every row that parses to a key has that key stored. -/
lemma storeCgmRows_key_exists (uid : Nat) (now : DTime) :
    ∀ (rows : List CsvRow) (s : Store) (row : CsvRow), row ∈ rows →
      ∀ t, rowKey now row = some t →
        cgmExists (storeCgmRows uid rows now s) uid t = true := by
  intro rows
  induction rows with
  | nil => intro s row hmem; cases hmem
  | cons head rest ih =>
    intro s row hmem t hkey
    rcases List.mem_cons.mp hmem with heq | htail
    · subst heq
      apply cgmExists_store_mono uid rest now
      unfold rowKey at hkey
      unfold processCgmRow
      dsimp only
      cases hts : row.timestamp with
      | none =>
        rw [hts] at hkey
        dsimp only at hkey
        cases hkey
        exact cgmExists_insert_self uid now row.glucose s
      | some str =>
        rw [hts] at hkey
        dsimp only at hkey
        dsimp only
        rw [hkey]
        exact cgmExists_insert_self uid t row.glucose s
    · exact ih (processCgmRow uid head now s) row htail t hkey

/-- If every row's key is already stored (or the row is skipped), the loop
is the identity. -/
lemma storeCgmRows_stable (uid : Nat) (now : DTime) :
    ∀ (rows : List CsvRow) (s : Store),
      (∀ row ∈ rows, ∀ t, rowKey now row = some t → cgmExists s uid t = true) →
      storeCgmRows uid rows now s = s := by
  intro rows
  induction rows with
  | nil => exact fun s _ => rfl
  | cons head rest ih =>
    intro s hall
    have hhead : processCgmRow uid head now s = s := by
      have hk := hall head (List.mem_cons_self head rest)
      unfold rowKey at hk
      unfold processCgmRow
      cases hts : head.timestamp with
      | none =>
        dsimp only
        have hx := hk now (by rw [hts])
        unfold insertCgmReading
        rw [if_pos (by simp [hx])]
      | some str =>
        dsimp only
        cases hp : parseTs str with
        | none => rfl
        | some t =>
          have hx := hk t (by rw [hts]; dsimp only; exact hp)
          unfold insertCgmReading
          dsimp only
          rw [if_pos (by simp [hx])]
    show storeCgmRows uid rest now (processCgmRow uid head now s) = s
    rw [hhead]
    exact ih s (fun row hr t ht => hall row (List.mem_cons_of_mem head hr) t ht)

/-- A reading whose (user, timestamp, `cgm`) key is already present is not
inserted again. -/
lemma insertCgmReading_of_exists (uid : Nat) (ts : DTime) (g : Rat) (s : Store)
    (h : cgmExists s uid ts = true) : insertCgmReading uid ts g s = s := by
  unfold insertCgmReading
  rw [if_pos (by simp [h])]

/-- C3: CGM ingestion is idempotent per (user, timestamp, source=`cgm`):
if each (user, timestamp) pair has at most one stored `cgm` reading, that
stays true after any upload; a parsed reading whose key already exists is
not inserted again; a CSV with two rows sharing one parsable timestamp
leaves exactly one `cgm` reading for that key; and re-running a whole
upload on its own result changes nothing. -/
theorem c3_cgm_dedup_idempotent (uid : Nat) (rows : List CsvRow) (now : DTime)
    (s : Store) :
    ((∀ u t, cgmCount s u t ≤ 1) →
      ∀ u t, cgmCount (storeCgmRows uid rows now s) u t ≤ 1) ∧
    (∀ ts g, cgmExists s uid ts = true → insertCgmReading uid ts g s = s) ∧
    (∀ str t g g2, parseTs str = some t → cgmExists s uid t = false →
      cgmCount (storeCgmRows uid [⟨some str, g⟩, ⟨some str, g2⟩] now s) uid t = 1) ∧
    (storeCgmRows uid rows now (storeCgmRows uid rows now s)
      = storeCgmRows uid rows now s) := by
  refine ⟨?_, ?_, ?_, ?_⟩
  · intro hinv
    exact storeCgmRows_inv uid rows now s hinv
  · intro ts g h
    exact insertCgmReading_of_exists uid ts g s h
  · intro str t g g2 hp hex
    have e1 : storeCgmRows uid [⟨some str, g⟩, ⟨some str, g2⟩] now s
        = processCgmRow uid ⟨some str, g2⟩ now (processCgmRow uid ⟨some str, g⟩ now s) :=
      rfl
    have h1 : processCgmRow uid ⟨some str, g⟩ now s = insertCgmReading uid t g s := by
      unfold processCgmRow
      dsimp only
      rw [hp]
    have h2 : processCgmRow uid ⟨some str, g2⟩ now (insertCgmReading uid t g s)
        = insertCgmReading uid t g s := by
      unfold processCgmRow
      dsimp only
      rw [hp]
      exact insertCgmReading_of_exists uid t g2 _ (cgmExists_insert_self uid t g s)
    rw [e1, h1, h2]
    exact cgmCount_insert_self uid t g s hex
  · exact storeCgmRows_stable uid now rows (storeCgmRows uid rows now s)
      (fun row hr t ht => storeCgmRows_key_exists uid now rows s row hr t ht)

/-- Witness for C3: two CSV rows with the same timestamp on an empty store
leave exactly one stored `cgm` reading for that key. -/
theorem c3_witness :
    cgmCount
      (storeCgmRows 1 [⟨some "2024-03-05 08:30:00", 110⟩, ⟨some "2024-03-05 08:30:00", 95⟩]
        ⟨2024, 3, 5, 9, 0, 0, 0, none⟩ emptyStore)
      1 ⟨2024, 3, 5, 8, 30, 0, 0, none⟩ = 1 :=
  (c3_cgm_dedup_idempotent 1
      [⟨some "2024-03-05 08:30:00", 110⟩, ⟨some "2024-03-05 08:30:00", 95⟩]
      ⟨2024, 3, 5, 9, 0, 0, 0, none⟩ emptyStore).2.2.1
    "2024-03-05 08:30:00" ⟨2024, 3, 5, 8, 30, 0, 0, none⟩ 110 95 (by decide) (by decide)

/-- Each point whose caching succeeds contributes its own reading to the
batch appended by the caching loop. -/
lemma cacheTs_mem (uid : Nat) (now : DTime) :
    ∀ (pts : List FPoint) (tss : List DTime), cacheTs now pts = some tss →
      ∀ pt ∈ pts, ∃ ts, pointTs now pt = some ts ∧
        (⟨uid, ts, pt.glucose, "forecast"⟩ : GlucoseReading) ∈
          (pts.zip tss).map
            (fun p => (⟨uid, p.2, p.1.glucose, "forecast"⟩ : GlucoseReading)) := by
  intro pts
  induction pts with
  | nil => intro tss _ pt hmem; cases hmem
  | cons q rest ih =>
    intro tss hc pt hmem
    unfold cacheTs at hc
    cases hq : pointTs now q with
    | none => rw [hq] at hc; cases hc
    | some t =>
      rw [hq] at hc
      cases hr : cacheTs now rest with
      | none => rw [hr] at hc; cases hc
      | some ts2 =>
        rw [hr] at hc
        dsimp only at hc
        cases hc
        rcases List.mem_cons.mp hmem with heq | htail
        · subst heq
          exact ⟨t, hq, List.mem_cons_self _ _⟩
        · obtain ⟨ts, h1, h2⟩ := ih ts2 hr pt htail
          exact ⟨ts, h1, List.mem_cons_of_mem _ h2⟩

/-- The two possible results of the forecast-and-cache tail of
`api_forecast`: either every point's timestamp resolves and the point rows are
appended, or the caching loop raises and the state is untouched. -/
lemma forecastAndCache_cases (uid : Nat) (rdgs : List JReading) (c : Bool)
    (now : DTime) (fg : List JReading → List FPoint) (s : Store) :
    (∃ tss, cacheTs now (fg (if rdgs.isEmpty then dbFallback uid s else rdgs)) = some tss ∧
      forecastAndCache uid rdgs c now fg s
        = (ForecastOutcome.ok (fg (if rdgs.isEmpty then dbFallback uid s else rdgs)) c,
           { s with readings := s.readings ++
              (((fg (if rdgs.isEmpty then dbFallback uid s else rdgs)).zip tss).map
                (fun p => (⟨uid, p.2, p.1.glucose, "forecast"⟩ : GlucoseReading))) })) ∨
    forecastAndCache uid rdgs c now fg s = (ForecastOutcome.serverError, s) := by
  unfold forecastAndCache
  dsimp only
  cases hc : cacheTs now (fg (if rdgs.isEmpty then dbFallback uid s else rdgs)) with
  | none => exact Or.inr rfl
  | some tss => exact Or.inl ⟨tss, rfl, rfl⟩

/-- Rows written by the caching loop are all `forecast`-sourced, so the
`cgm` filter ignores them. -/
lemma forecast_rows_filter_cgm (uid : Nat) (l : List (FPoint × DTime)) :
    ((l.map (fun p => (⟨uid, p.2, p.1.glucose, "forecast"⟩ : GlucoseReading))).filter
      (fun r => r.source == "cgm")) = [] := by
  induction l with
  | nil => rfl
  | cons p rest ih => simpa [List.filter_cons] using ih

/-- A successful forecast-and-cache run persists each returned point as a
`forecast` reading of the requesting user. -/
lemma forecastAndCache_ok (uid : Nat) (rdgs : List JReading) (c : Bool)
    (now : DTime) (fg : List JReading → List FPoint) (s : Store)
    (pts : List FPoint) (c2 : Bool)
    (h : (forecastAndCache uid rdgs c now fg s).1 = ForecastOutcome.ok pts c2) :
    ∀ pt ∈ pts, ∃ ts, pointTs now pt = some ts ∧
      (⟨uid, ts, pt.glucose, "forecast"⟩ : GlucoseReading)
        ∈ userReadings uid (forecastAndCache uid rdgs c now fg s).2 := by
  rcases forecastAndCache_cases uid rdgs c now fg s with ⟨tss, hc, heq⟩ | heq
  · rw [heq] at h
    dsimp only at h
    injection h with hpts _
    subst hpts
    intro pt hmem
    obtain ⟨ts, h1, h2⟩ := cacheTs_mem uid now _ tss hc pt hmem
    refine ⟨ts, h1, ?_⟩
    rw [heq]
    unfold userReadings
    exact List.mem_filter.mpr ⟨List.mem_append_right _ h2, by simp⟩
  · rw [heq] at h
    cases h

/-- C7: on every successful forecast API call, each returned forecast point
is persisted as a `forecast`-sourced GlucoseReading owned by the requesting
user — keyed by the point's own timestamp when it is a parsable string and
by the request time when the timestamp is not a string — and therefore
appears in subsequent reads of that user's readings. -/
theorem c7_forecast_points_persisted (uid : Nat) (req : ForecastReq) (now : DTime)
    (fg : List JReading → List FPoint) (s : Store) (pts : List FPoint) (c : Bool) :
    (api_forecast uid req now fg s).1 = ForecastOutcome.ok pts c →
    ∀ pt ∈ pts, ∃ ts, pointTs now pt = some ts ∧
      (⟨uid, ts, pt.glucose, "forecast"⟩ : GlucoseReading)
        ∈ userReadings uid (api_forecast uid req now fg s).2 := by
  intro h
  unfold api_forecast at h ⊢
  by_cases hj : req.is_json = true
  · rw [if_pos hj] at h ⊢
    exact forecastAndCache_ok uid req.json_readings false now fg s pts c h
  · rw [if_neg hj] at h ⊢
    cases hf : req.file with
    | none =>
      rw [hf] at h
      cases h
    | some rows =>
      rw [hf] at h
      dsimp only at h ⊢
      exact forecastAndCache_ok uid _ true now fg _ pts c h

/-- Witness for C7: a JSON forecast request whose forecast yields one point
with a parsable timestamp stores it for the user. -/
theorem c7_witness :
    (⟨1, ⟨2024, 1, 2, 0, 0, 0, 0, none⟩, 5, "forecast"⟩ : GlucoseReading)
      ∈ userReadings 1
        (api_forecast 1 ⟨true, [⟨some "2024-01-01T00:00:00", 4⟩], none⟩
          ⟨2024, 1, 1, 0, 0, 0, 0, none⟩
          (fun _ => [⟨some "2024-01-02T00:00:00", 5⟩]) emptyStore).2 := by
  obtain ⟨ts, hts, hmem⟩ := c7_forecast_points_persisted 1
    ⟨true, [⟨some "2024-01-01T00:00:00", 4⟩], none⟩ ⟨2024, 1, 1, 0, 0, 0, 0, none⟩
    (fun _ => [⟨some "2024-01-02T00:00:00", 5⟩]) emptyStore
    [⟨some "2024-01-02T00:00:00", 5⟩] false (by rfl)
    ⟨some "2024-01-02T00:00:00", 5⟩ (by simp)
  have hts2 : pointTs ⟨2024, 1, 1, 0, 0, 0, 0, none⟩ ⟨some "2024-01-02T00:00:00", 5⟩
      = some ⟨2024, 1, 2, 0, 0, 0, 0, none⟩ := by decide
  rw [hts2] at hts
  cases hts
  exact hmem

/-- C9: a forecast request whose body is JSON never writes a `cgm` reading
(every row it adds is `forecast`-sourced), never logs a `cgm_uploaded`
audit event (its audit log is untouched), reports `cgm_stored = false`,
and ignores any uploaded file entirely — the result is identical to the
same request without the file, because `request.is_json` is tested first. -/
theorem c9_json_request_frame (uid : Nat) (jr : List JReading)
    (f : Option (List CsvRow)) (now : DTime) (fg : List JReading → List FPoint)
    (s : Store) :
    api_forecast uid ⟨true, jr, f⟩ now fg s = api_forecast uid ⟨true, jr, none⟩ now fg s ∧
    ((api_forecast uid ⟨true, jr, f⟩ now fg s).2.readings.filter
        (fun r => r.source == "cgm")
      = s.readings.filter (fun r => r.source == "cgm")) ∧
    (api_forecast uid ⟨true, jr, f⟩ now fg s).2.audits = s.audits ∧
    (∀ pts c, (api_forecast uid ⟨true, jr, f⟩ now fg s).1 = ForecastOutcome.ok pts c →
      c = false) := by
  have hred : api_forecast uid ⟨true, jr, f⟩ now fg s
      = forecastAndCache uid jr false now fg s := rfl
  rcases forecastAndCache_cases uid jr false now fg s with ⟨tss, hc, heq⟩ | heq
  · refine ⟨rfl, ?_, ?_, ?_⟩
    · rw [hred, heq]
      dsimp only
      rw [List.filter_append, forecast_rows_filter_cgm]
      simp
    · rw [hred, heq]
    · intro pts c h
      rw [hred, heq] at h
      dsimp only at h
      injection h with _ hc2
      exact hc2.symm
  · refine ⟨rfl, ?_, ?_, ?_⟩
    · rw [hred, heq]
    · rw [hred, heq]
    · intro pts c h
      rw [hred, heq] at h
      cases h

/-- Witness for C9: a concrete JSON request (carrying a file that is
ignored) reports `cgm_stored = false`. -/
theorem c9_witness :
    ((api_forecast 1 ⟨true, [], some [⟨some "2024-01-01 00:00:00", 120⟩]⟩
        ⟨2024, 1, 1, 0, 0, 0, 0, none⟩ (fun _ => []) emptyStore).1
      = ForecastOutcome.ok [] false) ∧ false = false :=
  ⟨by rfl,
    (c9_json_request_frame 1 [] (some [⟨some "2024-01-01 00:00:00", 120⟩])
        ⟨2024, 1, 1, 0, 0, 0, 0, none⟩ (fun _ => []) emptyStore).2.2.2 [] false (by rfl)⟩
